import Mathlib

/-!
Shallow embedding of the fitness-tracker module `homework.py`: an
`InfoMessage` record with a fixed-template renderer, an abstract `Training`
base class with derived distance and mean speed, three concrete variants
(`Running`, `SportsWalking`, `Swimming`) each overriding the calorie
computation, and a dispatcher `read_package` mapping a workout code to the
matching constructor. Python floats are modelled as exact rationals; the
base class `NotImplementedError` and the dispatcher `KeyError` are
modelled with `Except`.
-/

namespace Homework

/-- The record `InfoMessage` : training type name plus the four numeric
fields `duration`, `distance`, `speed`, `calories`. -/
structure InfoMessage where
  training_type : String
  duration : ℚ
  distance : ℚ
  speed : ℚ
  calories : ℚ
deriving DecidableEq, Repr

/-- Round a rational to the nearest integer, ties to even: the rounding
that Python fixed-point float formatting performs on the numeric value. -/
def roundHalfEven (q : ℚ) : ℤ :=
  let f := Rat.floor q
  if q - f < 1 / 2 then f
  else if 1 / 2 < q - f then f + 1
  else if f % 2 = 0 then f else f + 1

/-- The character for the decimal digit `n % 10`. -/
def digitChar (n : ℕ) : Char := Char.ofNat (48 + n % 10)

/-- The last three decimal digits of `n`, zero padded: for `n < 1000` this
is `n` written with exactly three digits. -/
def pad3 (n : ℕ) : String :=
  ⟨[digitChar (n / 100), digitChar (n / 10), digitChar n]⟩

/-- The Python formatting `format(q, fmt)` with `fmt = ".3f"` taken on the
exact rational value `q`: sign, integer part, a dot, and exactly three
decimal digits (round half to even). -/
def formatFixed3 (q : ℚ) : String :=
  let n := (roundHalfEven ((if q < 0 then -q else q) * 1000)).toNat
  (if q < 0 then "-" else "") ++ toString (n / 1000) ++ "." ++ pad3 (n % 1000)

/-- `InfoMessage.get_message`: the class template `TEXT_MESSAGE` with the
five fields substituted, the numeric ones through `:.3f` formatting. -/
def InfoMessage.get_message (m : InfoMessage) : String :=
  "Тип тренировки: " ++ m.training_type ++
  "; Длительность: " ++ formatFixed3 m.duration ++
  " ч.; Дистанция: " ++ formatFixed3 m.distance ++
  " км; Ср. скорость: " ++ formatFixed3 m.speed ++
  " км/ч; Потрачено ккал: " ++ formatFixed3 m.calories ++ "."

/-- The render the spec describes, with its English field labels, for
comparison with `InfoMessage.get_message` from the source. -/
def InfoMessage.get_message_spec_en (m : InfoMessage) : String :=
  "Training type: " ++ m.training_type ++
  "; Duration: " ++ formatFixed3 m.duration ++
  " h; Distance: " ++ formatFixed3 m.distance ++
  " km; Avg speed: " ++ formatFixed3 m.speed ++
  " km/h; Calories spent: " ++ formatFixed3 m.calories ++ "."

/-- The base class `Training`: step count, duration in hours, weight. -/
structure Training where
  actions_count : ℚ
  duration_h : ℚ
  weight_kg : ℚ
deriving DecidableEq, Repr

namespace Training

/-- Class constant `M_IN_KM = 1000`. -/
def M_IN_KM : ℚ := 1000

/-- Class constant `LEN_STEP = 0.65` (metres per step). -/
def LEN_STEP : ℚ := 0.65

/-- Class constant `MINUTES_IN_HOUR = 60`. -/
def MINUTES_IN_HOUR : ℚ := 60

/-- `Training.get_distance`: `actions_count * LEN_STEP / M_IN_KM`. -/
def get_distance (t : Training) : ℚ :=
  t.actions_count * LEN_STEP / M_IN_KM

/-- `Training.get_mean_speed`: `get_distance() / duration_h`. -/
def get_mean_speed (t : Training) : ℚ :=
  t.get_distance / t.duration_h

/-- `Training.get_spent_calories`: raises `NotImplementedError` with a
message built from the dynamic type name; modelled as `Except`, the
dynamic name passed as an argument. -/
def get_spent_calories (type_name : String) (_t : Training) : Except String ℚ :=
  .error (type_name ++ " error. Subclasses should implement get_spent_calories!")

end Training

/-- `Running`: no extra fields, inherits distance and mean speed. -/
structure Running where
  base : Training
deriving DecidableEq, Repr

namespace Running

/-- Class constant `CALORIES_MEAN_SPEED_MULTIPLIER = 18`. -/
def CALORIES_MEAN_SPEED_MULTIPLIER : ℚ := 18

/-- Class constant `CALORIES_ENERGY_SUBTRAHEND = 1.79`. -/
def CALORIES_ENERGY_SUBTRAHEND : ℚ := 1.79

/-- Inherited `get_distance`. -/
def get_distance (r : Running) : ℚ := r.base.get_distance

/-- Inherited `get_mean_speed`. -/
def get_mean_speed (r : Running) : ℚ := r.base.get_mean_speed

/-- `Running.get_spent_calories`:
`(18 * mean_speed + 1.79) * weight / M_IN_KM * duration_in_minutes`. -/
def get_spent_calories (r : Running) : ℚ :=
  let duration_in_minutes := r.base.duration_h * Training.MINUTES_IN_HOUR
  (CALORIES_MEAN_SPEED_MULTIPLIER * r.get_mean_speed
      + CALORIES_ENERGY_SUBTRAHEND)
    * r.base.weight_kg
    / Training.M_IN_KM
    * duration_in_minutes

/-- `show_training_info` for `Running`: type name is the class name. -/
def show_training_info (r : Running) : InfoMessage :=
  ⟨"Running", r.base.duration_h, r.get_distance, r.get_mean_speed,
    r.get_spent_calories⟩

end Running

/-- `SportsWalking`: adds `height_cm`. -/
structure SportsWalking where
  base : Training
  height_cm : ℚ
deriving DecidableEq, Repr

namespace SportsWalking

/-- Class constant `CALORIES_WEIGHT_MULTIPLIER = 0.035`. -/
def CALORIES_WEIGHT_MULTIPLIER : ℚ := 0.035

/-- Class constant `CALORIES_DURATION_MULTIPLIER = 0.029`. -/
def CALORIES_DURATION_MULTIPLIER : ℚ := 0.029

/-- Class constant `CALORIES_MEAN_SPEED_SQUARING = 2` (an exponent). -/
def CALORIES_MEAN_SPEED_SQUARING : ℕ := 2

/-- Class constant `KM_PER_HOUR_TO_M_PER_SEC = 0.278`. -/
def KM_PER_HOUR_TO_M_PER_SEC : ℚ := 0.278

/-- Class constant `CM_TO_M = 100`. -/
def CM_TO_M : ℚ := 100

/-- Inherited `get_distance`. -/
def get_distance (w : SportsWalking) : ℚ := w.base.get_distance

/-- Inherited `get_mean_speed` (not overridden: stays km/h). -/
def get_mean_speed (w : SportsWalking) : ℚ := w.base.get_mean_speed

/-- `SportsWalking.get_spent_calories`:
`((0.035*weight) + ((mean_speed*0.278)^2 / (height/100)) * (0.029*weight))
 * (duration_h * 60)`. -/
def get_spent_calories (w : SportsWalking) : ℚ :=
  ((CALORIES_WEIGHT_MULTIPLIER * w.base.weight_kg)
      + ((w.get_mean_speed * KM_PER_HOUR_TO_M_PER_SEC)
            ^ CALORIES_MEAN_SPEED_SQUARING
          / (w.height_cm / CM_TO_M))
        * (CALORIES_DURATION_MULTIPLIER * w.base.weight_kg))
    * (w.base.duration_h * Training.MINUTES_IN_HOUR)

/-- `show_training_info` for `SportsWalking`. -/
def show_training_info (w : SportsWalking) : InfoMessage :=
  ⟨"SportsWalking", w.base.duration_h, w.get_distance, w.get_mean_speed,
    w.get_spent_calories⟩

end SportsWalking

/-- `Swimming`: adds `length_pool_m` and `count_pool`; overrides
`LEN_STEP` and `get_mean_speed`. -/
structure Swimming where
  base : Training
  length_pool_m : ℚ
  count_pool : ℚ
deriving DecidableEq, Repr

namespace Swimming

/-- Overridden class constant `LEN_STEP = 1.38` (metres per stroke). -/
def LEN_STEP : ℚ := 1.38

/-- Class constant `CALORIES_MEAN_SPEED_SUBTRAHEND = 1.1`. -/
def CALORIES_MEAN_SPEED_SUBTRAHEND : ℚ := 1.1

/-- Class constant `CALORIES_WEIGHT_MULTIPLIER = 2`. -/
def CALORIES_WEIGHT_MULTIPLIER : ℚ := 2

/-- Inherited `get_distance`, which reads the overridden `LEN_STEP`:
`actions_count * 1.38 / M_IN_KM`. -/
def get_distance (s : Swimming) : ℚ :=
  s.base.actions_count * LEN_STEP / Training.M_IN_KM

/-- Overridden `Swimming.get_mean_speed`:
`length_pool_m * count_pool / M_IN_KM / duration_h`. -/
def get_mean_speed (s : Swimming) : ℚ :=
  s.length_pool_m * s.count_pool / Training.M_IN_KM / s.base.duration_h

/-- `Swimming.get_spent_calories`:
`(mean_speed + 1.1) * 2 * weight * duration_h`. -/
def get_spent_calories (s : Swimming) : ℚ :=
  (s.get_mean_speed + CALORIES_MEAN_SPEED_SUBTRAHEND)
    * CALORIES_WEIGHT_MULTIPLIER
    * s.base.weight_kg
    * s.base.duration_h

/-- `show_training_info` for `Swimming`. -/
def show_training_info (s : Swimming) : InfoMessage :=
  ⟨"Swimming", s.base.duration_h, s.get_distance, s.get_mean_speed,
    s.get_spent_calories⟩

end Swimming

/-- A constructed training of any of the three concrete variants. -/
inductive AnyTraining where
  | running : Running → AnyTraining
  | walking : SportsWalking → AnyTraining
  | swimming : Swimming → AnyTraining
deriving DecidableEq, Repr

/-- Errors `read_package` can raise: the `KeyError` for an unknown
workout code (carrying the offending code), or a `TypeError` when the
readings do not match the constructor arity of the chosen variant. -/
inductive ReadError where
  | unknownWorkout : String → ReadError
  | badArity : String → ReadError
deriving DecidableEq, Repr

/-- `read_package`: dispatch a workout code to the matching variant,
forwarding the readings positionally to its constructor. -/
def read_package (workout_type : String) (data : List ℚ) :
    Except ReadError AnyTraining :=
  if workout_type = "SWM" then
    match data with
    | [a, d, w, l, c] => .ok (.swimming ⟨⟨a, d, w⟩, l, c⟩)
    | _ => .error (.badArity workout_type)
  else if workout_type = "RUN" then
    match data with
    | [a, d, w] => .ok (.running ⟨⟨a, d, w⟩⟩)
    | _ => .error (.badArity workout_type)
  else if workout_type = "WLK" then
    match data with
    | [a, d, w, h] => .ok (.walking ⟨⟨a, d, w⟩, h⟩)
    | _ => .error (.badArity workout_type)
  else .error (.unknownWorkout workout_type)

end Homework

namespace Homework

/-! Helper lemmas about the fixed-point formatter. -/

/-- Each digit character produced by `digitChar` satisfies `Char.isDigit`. -/
lemma digitChar_isDigit (n : ℕ) : (digitChar n).isDigit := by
  have h : n % 10 < 10 := Nat.mod_lt _ (by norm_num)
  have hall : ∀ k < 10, (Char.ofNat (48 + k)).isDigit := by decide
  simpa [digitChar] using hall (n % 10) h

/-- `pad3` always yields a three character string. -/
lemma pad3_length (n : ℕ) : (pad3 n).length = 3 := rfl

/-- Every character of `pad3 n` is a decimal digit. -/
lemma pad3_all_digits (n : ℕ) : (pad3 n).data.all Char.isDigit = true := by
  simp [pad3, digitChar_isDigit]

end Homework

open Homework

/-- C1: every training built from `actionsCount >= 0`, `durationHours > 0`,
`weightKg > 0` that keeps the base formulas has
`get_distance = actionsCount * 0.65 / 1000` and
`get_mean_speed = get_distance / durationHours`; `Running` and
`SportsWalking` delegate to the base formulas; the RUN package
`[15000, 1, 75]` yields distance and mean speed `9.750`, and the WLK
package `[9000, 1, 75, 180]` yields distance `5.850`. -/
theorem training_base_distance_speed :
    (∀ t : Training, 0 ≤ t.actions_count → 0 < t.duration_h →
      0 < t.weight_kg →
      t.get_distance = t.actions_count * 0.65 / 1000 ∧
      t.get_mean_speed = t.get_distance / t.duration_h) ∧
    (∀ r : Running, r.get_distance = r.base.get_distance ∧
      r.get_mean_speed = r.base.get_mean_speed) ∧
    (∀ w : SportsWalking, w.get_distance = w.base.get_distance ∧
      w.get_mean_speed = w.base.get_mean_speed) ∧
    read_package "RUN" [15000, 1, 75] = .ok (.running ⟨⟨15000, 1, 75⟩⟩) ∧
    (Running.mk ⟨15000, 1, 75⟩).get_distance = 9.750 ∧
    (Running.mk ⟨15000, 1, 75⟩).get_mean_speed = 9.750 ∧
    read_package "WLK" [9000, 1, 75, 180] =
      .ok (.walking ⟨⟨9000, 1, 75⟩, 180⟩) ∧
    (SportsWalking.mk ⟨9000, 1, 75⟩ 180).get_distance = 5.850 := by
  refine ⟨fun t _ _ _ => ⟨rfl, rfl⟩, fun r => ⟨rfl, rfl⟩,
    fun w => ⟨rfl, rfl⟩, rfl, ?_, ?_, rfl, ?_⟩ <;>
    norm_num [Running.get_distance, Running.get_mean_speed,
      SportsWalking.get_distance, Training.get_distance,
      Training.get_mean_speed, Training.LEN_STEP, Training.M_IN_KM]

/-- Witness for C1 at the RUN scenario readings. -/
theorem training_base_distance_speed_witness :
    (0 : ℚ) ≤ 15000 ∧ (0 : ℚ) < 1 ∧ (0 : ℚ) < 75 ∧
    ((Training.mk 15000 1 75).get_distance = 15000 * 0.65 / 1000 ∧
      (Training.mk 15000 1 75).get_mean_speed =
        (Training.mk 15000 1 75).get_distance / 1) :=
  ⟨by norm_num, by norm_num, by norm_num,
    training_base_distance_speed.1 ⟨15000, 1, 75⟩
      (by norm_num) (by norm_num) (by norm_num)⟩

/-- C2: for every `Running` with positive duration, the spent calories
equal `((18 * meanSpeed + 1.79) * weightKg / 1000) * durationMinutes`
with `durationMinutes = durationHours * 60`. -/
theorem running_calories_formula :
    ∀ r : Running, 0 < r.base.duration_h →
      r.get_spent_calories =
        ((18 * r.get_mean_speed + 1.79) * r.base.weight_kg / 1000)
          * (r.base.duration_h * 60) := by
  intro r _
  unfold Running.get_spent_calories
  norm_num [Running.CALORIES_MEAN_SPEED_MULTIPLIER,
    Running.CALORIES_ENERGY_SUBTRAHEND, Training.M_IN_KM,
    Training.MINUTES_IN_HOUR]

/-- Witness for C2 at the RUN scenario readings. -/
theorem running_calories_formula_witness :
    (0 : ℚ) < 1 ∧
    (Running.mk ⟨15000, 1, 75⟩).get_spent_calories =
      ((18 * (Running.mk ⟨15000, 1, 75⟩).get_mean_speed + 1.79)
          * 75 / 1000) * (1 * 60) :=
  ⟨by norm_num, running_calories_formula ⟨⟨15000, 1, 75⟩⟩ (by norm_num)⟩

/-- C3: every `SportsWalking` keeps the base mean speed, and for positive
duration and height the spent calories equal
`(0.035 * weight + (0.278 * meanSpeed)^2 / (height / 100) * 0.029 * weight)
 * (durationHours * 60)`. -/
theorem sports_walking_formulas :
    ∀ w : SportsWalking, 0 < w.base.duration_h → 0 < w.height_cm →
      w.get_mean_speed = w.get_distance / w.base.duration_h ∧
      w.get_spent_calories =
        (0.035 * w.base.weight_kg
            + (0.278 * w.get_mean_speed) ^ 2 / (w.height_cm / 100)
              * 0.029 * w.base.weight_kg)
          * (w.base.duration_h * 60) := by
  intro w _ _
  constructor
  · rfl
  · unfold SportsWalking.get_spent_calories
    simp only [SportsWalking.CALORIES_WEIGHT_MULTIPLIER,
      SportsWalking.CALORIES_DURATION_MULTIPLIER,
      SportsWalking.CALORIES_MEAN_SPEED_SQUARING,
      SportsWalking.KM_PER_HOUR_TO_M_PER_SEC, SportsWalking.CM_TO_M,
      Training.MINUTES_IN_HOUR]
    ring

/-- Witness for C3 at the WLK scenario readings. -/
theorem sports_walking_formulas_witness :
    (0 : ℚ) < 1 ∧ (0 : ℚ) < 180 ∧
    ((SportsWalking.mk ⟨9000, 1, 75⟩ 180).get_mean_speed =
        (SportsWalking.mk ⟨9000, 1, 75⟩ 180).get_distance / 1 ∧
      (SportsWalking.mk ⟨9000, 1, 75⟩ 180).get_spent_calories =
        (0.035 * 75
            + (0.278 * (SportsWalking.mk ⟨9000, 1, 75⟩ 180).get_mean_speed)
                  ^ 2 / (180 / 100) * 0.029 * 75)
          * (1 * 60)) :=
  ⟨by norm_num, by norm_num,
    sports_walking_formulas ⟨⟨9000, 1, 75⟩, 180⟩ (by norm_num) (by norm_num)⟩

/-- C4: the overridden `Swimming` mean speed equals
`poolLengthM * poolLapCount / 1000 / durationHours`, depends only on the
pool length, lap count and duration (never on the stroke count), and the
SWM package `[720, 1, 80, 25, 40]` yields mean speed `1.000`. -/
theorem swimming_mean_speed_pool_based :
    (∀ s : Swimming, 0 < s.base.duration_h →
      s.get_mean_speed =
        s.length_pool_m * s.count_pool / 1000 / s.base.duration_h) ∧
    (∀ s1 s2 : Swimming, s1.length_pool_m = s2.length_pool_m →
      s1.count_pool = s2.count_pool →
      s1.base.duration_h = s2.base.duration_h →
      s1.get_mean_speed = s2.get_mean_speed) ∧
    read_package "SWM" [720, 1, 80, 25, 40] =
      .ok (.swimming ⟨⟨720, 1, 80⟩, 25, 40⟩) ∧
    (Swimming.mk ⟨720, 1, 80⟩ 25 40).get_mean_speed = 1 := by
  refine ⟨fun s _ => rfl, fun s1 s2 hl hc hd => ?_, rfl, ?_⟩
  · unfold Swimming.get_mean_speed
    rw [hl, hc, hd]
  · norm_num [Swimming.get_mean_speed, Training.M_IN_KM]

/-- Witness for C4: two SWM instances differing only in the stroke count
have the same mean speed. -/
theorem swimming_mean_speed_pool_based_witness :
    (25 : ℚ) = 25 ∧ (40 : ℚ) = 40 ∧ (1 : ℚ) = 1 ∧
    (Swimming.mk ⟨720, 1, 80⟩ 25 40).get_mean_speed =
      (Swimming.mk ⟨9999, 1, 80⟩ 25 40).get_mean_speed :=
  ⟨rfl, rfl, rfl,
    swimming_mean_speed_pool_based.2.1
      ⟨⟨720, 1, 80⟩, 25, 40⟩ ⟨⟨9999, 1, 80⟩, 25, 40⟩ rfl rfl rfl⟩

/-- C5: for every `Swimming` with positive duration, the spent calories
equal `(meanSpeed + 1.1) * 2 * weightKg * durationHours`, with the
overridden pool based mean speed. -/
theorem swimming_calories_formula :
    ∀ s : Swimming, 0 < s.base.duration_h →
      s.get_spent_calories =
        (s.get_mean_speed + 1.1) * 2 * s.base.weight_kg
          * s.base.duration_h := by
  intro s _
  unfold Swimming.get_spent_calories
  norm_num [Swimming.CALORIES_MEAN_SPEED_SUBTRAHEND,
    Swimming.CALORIES_WEIGHT_MULTIPLIER]

/-- Witness for C5 at the SWM scenario readings. -/
theorem swimming_calories_formula_witness :
    (0 : ℚ) < 1 ∧
    (Swimming.mk ⟨720, 1, 80⟩ 25 40).get_spent_calories =
      ((Swimming.mk ⟨720, 1, 80⟩ 25 40).get_mean_speed + 1.1)
        * 2 * 80 * 1 :=
  ⟨by norm_num, swimming_calories_formula ⟨⟨720, 1, 80⟩, 25, 40⟩ (by norm_num)⟩

/-- C6: `read_package` fails with the unknown-workout error carrying the
offending code (constructing no training) for every code outside
`SWM`, `RUN`, `WLK`, and for each known code returns the matching variant
built by forwarding the readings positionally to its constructor. -/
theorem read_package_dispatch :
    (∀ (code : String) (data : List ℚ),
      code ∉ (["SWM", "RUN", "WLK"] : List String) →
      read_package code data = .error (.unknownWorkout code)) ∧
    (∀ a d w : ℚ,
      read_package "RUN" [a, d, w] = .ok (.running ⟨⟨a, d, w⟩⟩)) ∧
    (∀ a d w h : ℚ,
      read_package "WLK" [a, d, w, h] = .ok (.walking ⟨⟨a, d, w⟩, h⟩)) ∧
    (∀ a d w l c : ℚ,
      read_package "SWM" [a, d, w, l, c] =
        .ok (.swimming ⟨⟨a, d, w⟩, l, c⟩)) := by
  refine ⟨fun code data hc => ?_, fun a d w => rfl,
    fun a d w h => rfl, fun a d w l c => rfl⟩
  simp only [List.mem_cons, List.not_mem_nil, or_false, not_or] at hc
  obtain ⟨h1, h2, h3⟩ := hc
  simp [read_package, h1, h2, h3]

/-- Witness for C6 at the unknown code `XYZ`. -/
theorem read_package_dispatch_witness :
    "XYZ" ∉ (["SWM", "RUN", "WLK"] : List String) ∧
    read_package "XYZ" [] = .error (.unknownWorkout "XYZ") :=
  ⟨by decide, read_package_dispatch.1 "XYZ" [] (by decide)⟩

/-- C7 counterexample: the rendered message is not the English template
the spec quotes (the source template has Russian labels). -/
theorem info_message_not_english_template :
    (InfoMessage.mk "Running" 1 1 1 1).get_message ≠
      InfoMessage.get_message_spec_en (InfoMessage.mk "Running" 1 1 1 1) := by
  with_unfolding_all decide

/-- C7 amended: `get_message` always renders the fixed source template
(Russian labels, same five fields and order as the spec quotes), every
numeric field goes through `formatFixed3`, `formatFixed3` always has
exactly three decimal digits after its dot, and a duration of `1` renders
as `1.000`. -/
theorem info_message_template_three_decimals :
    (∀ m : InfoMessage, m.get_message =
      "Тип тренировки: " ++ m.training_type ++
      "; Длительность: " ++ formatFixed3 m.duration ++
      " ч.; Дистанция: " ++ formatFixed3 m.distance ++
      " км; Ср. скорость: " ++ formatFixed3 m.speed ++
      " км/ч; Потрачено ккал: " ++ formatFixed3 m.calories ++ ".") ∧
    (∀ q : ℚ, ∃ a b : String, formatFixed3 q = a ++ "." ++ b ∧
      b.length = 3 ∧ b.data.all Char.isDigit = true) ∧
    formatFixed3 1 = "1.000" := by
  refine ⟨fun m => rfl, fun q => ?_, by with_unfolding_all decide⟩
  exact ⟨(if q < 0 then "-" else "") ++
      toString ((roundHalfEven ((if q < 0 then -q else q) * 1000)).toNat
        / 1000),
    pad3 ((roundHalfEven ((if q < 0 then -q else q) * 1000)).toNat % 1000),
    rfl, pad3_length _, pad3_all_digits _⟩

/-- C8: the base class calorie computation always fails with the
unimplemented error naming the concrete type, and never returns a
value. -/
theorem base_calories_unimplemented :
    ∀ (type_name : String) (t : Training),
      Training.get_spent_calories type_name t =
        .error (type_name ++
          " error. Subclasses should implement get_spent_calories!") ∧
      ∀ v : ℚ, Training.get_spent_calories type_name t ≠ .ok v := by
  intro type_name t
  refine ⟨rfl, fun v h => ?_⟩
  simp [Training.get_spent_calories] at h

/-- C9: under the documented input ranges, each of the three concrete
calorie computations returns a nonnegative value. -/
theorem calories_nonneg :
    (∀ r : Running, 0 ≤ r.base.actions_count → 0 < r.base.duration_h →
      0 < r.base.weight_kg → 0 ≤ r.get_spent_calories) ∧
    (∀ w : SportsWalking, 0 ≤ w.base.actions_count →
      0 < w.base.duration_h → 0 < w.base.weight_kg → 0 < w.height_cm →
      0 ≤ w.get_spent_calories) ∧
    (∀ s : Swimming, 0 < s.base.duration_h → 0 < s.base.weight_kg →
      0 < s.length_pool_m → 0 ≤ s.count_pool →
      0 ≤ s.get_spent_calories) := by
  have hlen : (0 : ℚ) ≤ Training.LEN_STEP := by norm_num [Training.LEN_STEP]
  have hmk : (0 : ℚ) ≤ Training.M_IN_KM := by norm_num [Training.M_IN_KM]
  have hmin : (0 : ℚ) ≤ Training.MINUTES_IN_HOUR := by
    norm_num [Training.MINUTES_IN_HOUR]
  refine ⟨fun r ha hd hw => ?_, fun w ha hd hw hh => ?_,
    fun s hd hw hl hc => ?_⟩
  · have hm : (0 : ℚ) ≤ r.get_mean_speed :=
      div_nonneg (div_nonneg (mul_nonneg ha hlen) hmk) hd.le
    have hx : (0 : ℚ) ≤ Running.CALORIES_MEAN_SPEED_MULTIPLIER
        * r.get_mean_speed + Running.CALORIES_ENERGY_SUBTRAHEND := by
      have : (0 : ℚ) ≤ 18 * r.get_mean_speed := by linarith
      norm_num [Running.CALORIES_MEAN_SPEED_MULTIPLIER,
        Running.CALORIES_ENERGY_SUBTRAHEND]
      linarith
    exact mul_nonneg (div_nonneg (mul_nonneg hx hw.le) hmk)
      (mul_nonneg hd.le hmin)
  · have h1 : (0 : ℚ) ≤ SportsWalking.CALORIES_WEIGHT_MULTIPLIER
        * w.base.weight_kg :=
      mul_nonneg (by norm_num [SportsWalking.CALORIES_WEIGHT_MULTIPLIER])
        hw.le
    have h2 : (0 : ℚ) ≤ (w.get_mean_speed
          * SportsWalking.KM_PER_HOUR_TO_M_PER_SEC)
            ^ SportsWalking.CALORIES_MEAN_SPEED_SQUARING
          / (w.height_cm / SportsWalking.CM_TO_M)
        * (SportsWalking.CALORIES_DURATION_MULTIPLIER
            * w.base.weight_kg) := by
      refine mul_nonneg (div_nonneg ?_ (div_nonneg hh.le
          (by norm_num [SportsWalking.CM_TO_M])))
        (mul_nonneg
          (by norm_num [SportsWalking.CALORIES_DURATION_MULTIPLIER]) hw.le)
      simp only [SportsWalking.CALORIES_MEAN_SPEED_SQUARING]
      exact sq_nonneg _
    exact mul_nonneg (add_nonneg h1 h2) (mul_nonneg hd.le hmin)
  · have hm : (0 : ℚ) ≤ s.get_mean_speed :=
      div_nonneg (div_nonneg (mul_nonneg hl.le hc) hmk) hd.le
    have hx : (0 : ℚ) ≤ s.get_mean_speed
        + Swimming.CALORIES_MEAN_SPEED_SUBTRAHEND := by
      norm_num [Swimming.CALORIES_MEAN_SPEED_SUBTRAHEND]
      linarith
    exact mul_nonneg (mul_nonneg (mul_nonneg hx
      (by norm_num [Swimming.CALORIES_WEIGHT_MULTIPLIER])) hw.le) hd.le

/-- Witness for C9 at the RUN scenario readings. -/
theorem calories_nonneg_witness :
    (0 : ℚ) ≤ 15000 ∧ (0 : ℚ) < 1 ∧ (0 : ℚ) < 75 ∧
    0 ≤ (Running.mk ⟨15000, 1, 75⟩).get_spent_calories :=
  ⟨by norm_num, by norm_num, by norm_num,
    calories_nonneg.1 ⟨⟨15000, 1, 75⟩⟩
      (by norm_num) (by norm_num) (by norm_num)⟩

/-- C10: `Swimming` keeps the inherited stroke based distance
`actions_count * 1.38 / 1000`, that distance is what the info message
carries, and at the SWM scenario it differs from mean speed times
duration. -/
theorem swimming_distance_stroke_based :
    (∀ s : Swimming,
      s.get_distance = s.base.actions_count * 1.38 / 1000 ∧
      s.show_training_info.distance = s.get_distance) ∧
    (Swimming.mk ⟨720, 1, 80⟩ 25 40).show_training_info.distance ≠
      (Swimming.mk ⟨720, 1, 80⟩ 25 40).get_mean_speed
        * (Swimming.mk ⟨720, 1, 80⟩ 25 40).base.duration_h := by
  refine ⟨fun s => ⟨rfl, rfl⟩, ?_⟩
  norm_num [Swimming.show_training_info, Swimming.get_distance,
    Swimming.get_mean_speed, Swimming.LEN_STEP, Training.M_IN_KM]
